import Mathlib

/-!
Shallow embedding of the relationship-resolution core of
src/scripts/gen_k8s_diagrams.py, together with theorems settling the
spec's claims about it.

The script classifies loaded Kubernetes resource records by kind into
workloads, services, ingresses, pods and endpoints, then derives three
families of edges:
  * Service → Workload backend edges by label-selector subset matching
    (lines 89-104),
  * Ingress → Service routing edges by iterating rules and HTTP paths
    (lines 143-156 and 195-206),
  * Workload → Pod ownership edges by exact owner-reference matching
    (lines 183-192),
and groups Services and Workloads by namespace for rendering
(lines 122-136).

Resources are modelled as records whose optional fields mirror the
dictionary lookups of the Python accessors (lines 35-49): an absent
namespace defaults to "default", absent labels, selector and
ownerReferences default to empty.  Python dictionaries for labels and
selectors are modelled as association lists with lookup of the first
binding, and dictionary string sorting is modelled by an executable
lexicographic code-point comparison.
-/

namespace K8sDiagrams

/-- One entry of a Pod's metadata.ownerReferences list; the script reads
the kind and name fields with dictionary get, so both may be absent. -/
structure OwnerRef where
  okind : Option String := none
  oname : Option String := none
deriving DecidableEq

/-- One entry of an Ingress rule's http.paths list; the script reads
backend.service.name through chained dictionary gets, so the whole chain
collapses to an optional service name. -/
structure IngressPath where
  backendServiceName : Option String := none
deriving DecidableEq

/-- One entry of an Ingress's spec.rules list; an absent http or paths
field is read as an empty path list. -/
structure IngressRule where
  paths : List IngressPath := []
deriving DecidableEq

/-- A normalized resource record.  The loader guarantees a kind and a
metadata block; every other field the resolution code reads is optional
and modelled as such. -/
structure Resource where
  kind : String
  metaNamespace : Option String := none
  metaName : Option String := none
  metaLabels : Option (List (String × String)) := none
  specSelector : Option (List (String × String)) := none
  ownerReferences : Option (List OwnerRef) := none
  rules : List IngressRule := []
deriving DecidableEq

/-- Accessor ns of line 35: metadata.namespace, defaulting to
"default" when absent. -/
def ns (o : Resource) : String := o.metaNamespace.getD "default"

/-- Accessor name of line 36: metadata.name, defaulting to the empty
string when absent. -/
def name (o : Resource) : String := o.metaName.getD ""

/-- Accessor label_map of line 39: metadata.labels, defaulting to the
empty map when absent or null. -/
def label_map (o : Resource) : List (String × String) := o.metaLabels.getD []

/-- Accessor svc_selector of lines 47-49: spec.selector, defaulting to
the empty map when absent or null. -/
def svc_selector (o : Resource) : List (String × String) := o.specSelector.getD []

/-- Predicate workload_type of lines 51-52. -/
def workload_type (k : String) : Bool :=
  k == "Deployment" || k == "StatefulSet" || k == "DaemonSet" || k == "Job" || k == "CronJob"

/-- Key builder obj_key of line 54: the namespace:kind:name identity
string used wherever edges reference a resource. -/
def obj_key (o : Resource) : String := ns o ++ ":" ++ o.kind ++ ":" ++ name o

/-- The workloads bucket of the classification loop (lines 76-87). -/
def workloads (objs : List Resource) : List Resource :=
  objs.filter (fun o => workload_type o.kind)

/-- The services bucket of the classification loop (lines 76-87). -/
def services (objs : List Resource) : List Resource :=
  objs.filter (fun o => o.kind == "Service")

/-- The ingresses bucket of the classification loop (lines 76-87). -/
def ingresses (objs : List Resource) : List Resource :=
  objs.filter (fun o => o.kind == "Ingress")

/-- The pods bucket of the classification loop (lines 76-87). -/
def pods (objs : List Resource) : List Resource :=
  objs.filter (fun o => o.kind == "Pod")

/-- The endpoints bucket of the classification loop (lines 76-87);
recognized but never resolved against. -/
def endpoints (objs : List Resource) : List Resource :=
  objs.filter (fun o => o.kind == "Endpoints" || o.kind == "EndpointSlice")

/-- The matching condition of line 103: every selector key must be
bound in the label map to an equal value. -/
def selMatches (sel labels : List (String × String)) : Bool :=
  sel.all (fun kv => labels.lookup kv.1 == some kv.2)

/-- The per-service body of the backend-matching loop (lines 95-104):
an empty or absent selector is skipped, otherwise the same-namespace
workloads whose labels satisfy the selector, in load order. -/
def backendsOf (wls : List Resource) (s : Resource) : List Resource :=
  if (svc_selector s).isEmpty then []
  else (wls.filter (fun w => ns w == ns s)).filter
    (fun w => selMatches (svc_selector s) (label_map w))

/-- The svc_backends dictionary of lines 94-104: for a given key, the
matches appended by every Service whose obj_key equals that key, in
service load order. -/
def svc_backends (objs : List Resource) (key : String) : List Resource :=
  ((services objs).filter (fun s => obj_key s == key)).flatMap
    (fun s => backendsOf (workloads objs) s)

/-- The per-ingress route extraction of lines 198-206 (also 146-156):
iterate rules, then HTTP paths, and keep one (service name, ingress
namespace) pair per path that carries backend.service.name. -/
def routesOf (ing : Resource) : List (String × String) :=
  ing.rules.flatMap (fun r =>
    r.paths.filterMap (fun p => p.backendServiceName.map (fun sn => (sn, ns ing))))

/-- The per-pod ownership loop of lines 184-192: for each owner
reference, one (workload key, pod key) edge per loaded workload in the
pod's namespace matching the reference exactly on kind and name. -/
def podOwnershipEdges (wls : List Resource) (p : Resource) : List (String × String) :=
  (p.ownerReferences.getD []).flatMap (fun oref =>
    (wls.filter (fun w =>
        ns w == ns p && oref.oname == some (name w) && oref.okind == some w.kind)).map
      (fun w => (obj_key w, obj_key p)))

/-- The ownerWorkloadOf query surface: the workload keys of the
ownership edges emitted for a pod. -/
def ownerWorkloadOf (wls : List Resource) (p : Resource) : List String :=
  (podOwnershipEdges wls p).map Prod.fst

/-- A resolved relationship edge. -/
inductive Edge where
  | serviceBackend (service workload : String)
  | ingressRoute (ingress serviceName nsIng : String)
  | podOwnership (workload pod : String)
deriving DecidableEq

/-- The ServiceBackend edge emission of lines 139-142 and 177-180: each
service replays the accumulated backend list stored under its key. -/
def serviceBackendEdges (objs : List Resource) : List Edge :=
  (services objs).flatMap (fun s =>
    (svc_backends objs (obj_key s)).map (fun w => Edge.serviceBackend (obj_key s) (obj_key w)))

/-- The IngressRoute edge emission of lines 195-206. -/
def ingressRouteEdges (objs : List Resource) : List Edge :=
  (ingresses objs).flatMap (fun ing =>
    (routesOf ing).map (fun r => Edge.ingressRoute (obj_key ing) r.1 r.2))

/-- The PodOwnership edge emission of lines 183-192 (run when pods are
included in the low-level view). -/
def podOwnershipAllEdges (objs : List Resource) : List Edge :=
  (pods objs).flatMap (fun p =>
    (podOwnershipEdges (workloads objs) p).map (fun e => Edge.podOwnership e.1 e.2))

/-- All three resolution passes, collected. -/
def resolveAll (objs : List Resource) : List Edge :=
  serviceBackendEdges objs ++ ingressRouteEdges objs ++ podOwnershipAllEdges objs

/-- Executable lexicographic comparison of code-point sequences,
modelling Python string comparison. -/
def lexLe : List Char → List Char → Bool
  | [], _ => true
  | _ :: _, [] => false
  | a :: as, b :: bs =>
    if a.toNat < b.toNat then true
    else if b.toNat < a.toNat then false
    else lexLe as bs

/-- Lexicographic comparison on strings. -/
def strLeb (a b : String) : Bool := lexLe a.data b.data

/-- The order relation used to model the sorted builtin on strings. -/
def strLeR (a b : String) : Prop := strLeb a b = true

instance : DecidableRel strLeR :=
  fun a b => inferInstanceAs (Decidable (strLeb a b = true))

/-- Totality of the lexicographic comparison. -/
theorem lexLe_total : ∀ (as bs : List Char), lexLe as bs = true ∨ lexLe bs as = true
  | [], _ => Or.inl rfl
  | _ :: _, [] => Or.inr rfl
  | a :: as, b :: bs => by
      rcases Nat.lt_trichotomy a.toNat b.toNat with h | h | h
      · exact Or.inl (by simp [lexLe, h])
      · have := lexLe_total as bs
        simpa [lexLe, h, Nat.lt_irrefl] using this
      · exact Or.inr (by simp [lexLe, h])

/-- Transitivity of the lexicographic comparison. -/
theorem lexLe_trans : ∀ (as bs cs : List Char),
    lexLe as bs = true → lexLe bs cs = true → lexLe as cs = true
  | [], _, _, _, _ => rfl
  | _ :: _, [], _, h1, _ => by simp [lexLe] at h1
  | _ :: _, _ :: _, [], _, h2 => by simp [lexLe] at h2
  | a :: as, b :: bs, c :: cs, h1, h2 => by
      simp only [lexLe] at h1 h2 ⊢
      split_ifs at h1 h2 ⊢ <;>
        first
          | rfl
          | omega
          | exact lexLe_trans as bs cs h1 h2

instance : IsTotal String strLeR := ⟨fun a b => lexLe_total a.data b.data⟩

instance : IsTrans String strLeR := ⟨fun a b c => lexLe_trans a.data b.data c.data⟩

/-- The namespace grouping of lines 122-131 exposed to renderers:
the distinct namespaces of services and workloads, sorted. -/
def namespacesOf (objs : List Resource) : List String :=
  List.insertionSort strLeR (((services objs).map ns ++ (workloads objs).map ns).dedup)

/-- Membership in the backend list of a service with a non-empty
selector: exactly the loaded same-namespace workloads whose labels bind
every selector key to the selector's value. -/
theorem mem_backendsOf {wls : List Resource} {s w : Resource}
    (hsel : svc_selector s ≠ []) :
    w ∈ backendsOf wls s ↔
      w ∈ wls ∧ ns w = ns s ∧
        ∀ kv ∈ svc_selector s, (label_map w).lookup kv.1 = some kv.2 := by
  rw [backendsOf, if_neg (by simpa [List.isEmpty_iff] using hsel)]
  simp only [List.mem_filter, selMatches, List.all_eq_true, Bool.and_eq_true, beq_iff_eq,
    Prod.forall, and_assoc]

/-- Membership in the ownership edge list of a pod: exactly one edge per
owner reference and loaded workload agreeing on namespace, name and
kind. -/
theorem mem_podOwnershipEdges {wls : List Resource} {p : Resource} {wk pk : String} :
    (wk, pk) ∈ podOwnershipEdges wls p ↔
      ∃ oref ∈ p.ownerReferences.getD [], ∃ w ∈ wls,
        ns w = ns p ∧ oref.oname = some (name w) ∧ oref.okind = some w.kind ∧
          wk = obj_key w ∧ pk = obj_key p := by
  simp only [podOwnershipEdges, List.mem_flatMap, List.mem_map, List.mem_filter,
    Bool.and_eq_true, beq_iff_eq, Prod.mk.injEq]
  aesop

/-- Length of the optional-service extraction over a path list: one
entry per path that carries a backend service name. -/
theorem length_filterMap_optionMap {α : Type} (g : String → α) :
    ∀ paths : List IngressPath,
      (paths.filterMap (fun p => p.backendServiceName.map g)).length
        = (paths.filter (fun p => p.backendServiceName.isSome)).length
  | [] => rfl
  | p :: ps => by
      cases h : p.backendServiceName <;>
        simp [List.filterMap_cons, List.filter_cons, h, length_filterMap_optionMap g ps]

/-- The sorted namespace grouping has the same members as the
namespaces of services and workloads. -/
theorem mem_namespacesOf {objs : List Resource} {n : String} :
    n ∈ namespacesOf objs ↔ n ∈ (services objs).map ns ++ (workloads objs).map ns := by
  rw [namespacesOf, (List.perm_insertionSort _ _).mem_iff, List.mem_dedup]

section Demos

/-- Workload of the spec's asymmetry example: labels app=x, tier=y. -/
def wlUi : Resource :=
  { kind := "Deployment"
    metaNamespace := some "web"
    metaName := some "ui"
    metaLabels := some [("app", "x"), ("tier", "y")] }

/-- Service with no selector at all. -/
def svcNoSel : Resource :=
  { kind := "Service"
    metaNamespace := some "web"
    metaName := some "s0" }

/-- Service with selector app=x. -/
def svcApp : Resource :=
  { kind := "Service"
    metaNamespace := some "web"
    metaName := some "s1"
    specSelector := some [("app", "x")] }

/-- Service with selector app=x, tier=z. -/
def svcAppTierZ : Resource :=
  { kind := "Service"
    metaNamespace := some "web"
    metaName := some "s2"
    specSelector := some [("app", "x"), ("tier", "z")] }

/-- Ingress with one rule holding one named path and one nameless path. -/
def ingMain : Resource :=
  { kind := "Ingress"
    metaNamespace := some "web"
    metaName := some "main"
    rules := [{ paths := [{ backendServiceName := some "frontend" }, {}] }] }

/-- Ingress whose only path has no backend service name. -/
def ingNoName : Resource :=
  { kind := "Ingress"
    metaNamespace := some "web"
    metaName := some "bare"
    rules := [{ paths := [{}] }] }

/-- Pod owned by a ReplicaSet that is never loaded. -/
def podAbc : Resource :=
  { kind := "Pod"
    metaNamespace := some "web"
    metaName := some "frontend-deploy-abc123"
    ownerReferences := some [{ okind := some "ReplicaSet", oname := some "frontend-deploy-rs" }] }

/-- Pod with no ownerReferences field. -/
def podNoRefs : Resource :=
  { kind := "Pod"
    metaNamespace := some "web"
    metaName := some "lonely" }

/-- Pod with no namespace field. -/
def podNoNs : Resource :=
  { kind := "Pod"
    metaName := some "q" }

/-- Deployment named frontend-deploy. -/
def wlFrontend : Resource :=
  { kind := "Deployment"
    metaNamespace := some "web"
    metaName := some "frontend-deploy"
    metaLabels := some [("app", "frontend")] }

/-- Pod with two owner references, one per loaded workload. -/
def podTwoRefs : Resource :=
  { kind := "Pod"
    metaNamespace := some "d"
    metaName := some "p"
    ownerReferences := some [{ okind := some "Deployment", oname := some "wa" },
      { okind := some "Job", oname := some "wb" }] }

/-- Deployment wa in namespace d. -/
def wlDepA : Resource :=
  { kind := "Deployment"
    metaNamespace := some "d"
    metaName := some "wa" }

/-- Job wb in namespace d. -/
def wlJobB : Resource :=
  { kind := "Job"
    metaNamespace := some "d"
    metaName := some "wb" }

/-- First of two services sharing the key d:Service:x, selector a=1. -/
def svcX1 : Resource :=
  { kind := "Service"
    metaNamespace := some "d"
    metaName := some "x"
    specSelector := some [("a", "1")] }

/-- Second of two services sharing the key d:Service:x, selector b=2. -/
def svcX2 : Resource :=
  { kind := "Service"
    metaNamespace := some "d"
    metaName := some "x"
    specSelector := some [("b", "2")] }

/-- Deployment matching only the first duplicate-key service. -/
def wlA : Resource :=
  { kind := "Deployment"
    metaNamespace := some "d"
    metaName := some "wa2"
    metaLabels := some [("a", "1")] }

/-- Deployment matching only the second duplicate-key service. -/
def wlB : Resource :=
  { kind := "Deployment"
    metaNamespace := some "d"
    metaName := some "wb2"
    metaLabels := some [("b", "2")] }

/-- Resource set with two services of identical key. -/
def objs6 : List Resource := [svcX1, svcX2, wlA, wlB]

/-- Pod in a namespace holding nothing but pods. -/
def podZ : Resource :=
  { kind := "Pod"
    metaNamespace := some "z"
    metaName := some "pz" }

/-- Service in namespace a selecting app=x. -/
def svcA7 : Resource :=
  { kind := "Service"
    metaNamespace := some "a"
    metaName := some "s"
    specSelector := some [("app", "x")] }

/-- Matching deployment named b, loaded before the one named a. -/
def wlB7 : Resource :=
  { kind := "Deployment"
    metaNamespace := some "a"
    metaName := some "b"
    metaLabels := some [("app", "x")] }

/-- Matching deployment named a, loaded after the one named b. -/
def wlA7 : Resource :=
  { kind := "Deployment"
    metaNamespace := some "a"
    metaName := some "a"
    metaLabels := some [("app", "x")] }

/-- Resource set exercising grouping and backend order. -/
def objs7 : List Resource := [podZ, svcA7, wlB7, wlA7]

end Demos

/-- Claim C1, corrected to services with a non-empty selector: a loaded
Workload in the Service's namespace is among its backends exactly when
every selector pair is bound identically in the Workload's labels;
extra labels are ignored. -/
theorem c1_subset_matching (wls : List Resource) (s w : Resource)
    (hsel : svc_selector s ≠ []) (hw : w ∈ wls) (hns : ns w = ns s) :
    w ∈ backendsOf wls s ↔
      ∀ kv ∈ svc_selector s, (label_map w).lookup kv.1 = some kv.2 := by
  rw [mem_backendsOf hsel]
  simp [hw, hns]

/-- Claim C1 as stated is false: for a Service with an empty selector
the biconditional fails, since every pair of the empty selector is
vacuously satisfied by any same-namespace Workload, yet the code skips
such services and produces no backend. -/
theorem c1_empty_selector_vacuous_counterexample :
    ns wlUi = ns svcNoSel ∧
      (∀ kv ∈ svc_selector svcNoSel, (label_map wlUi).lookup kv.1 = some kv.2) ∧
      wlUi ∉ backendsOf [wlUi] svcNoSel := by
  decide

/-- Witness for C1, on the spec's own asymmetry example: labels
app=x, tier=y match selector app=x, while selector app=x, tier=z does
not match those labels. -/
theorem c1_subset_matching_witness :
    wlUi ∈ backendsOf [wlUi] svcApp ∧ wlUi ∉ backendsOf [wlUi] svcAppTierZ :=
  ⟨(c1_subset_matching [wlUi] svcApp wlUi (by decide) (by decide) (by decide)).mpr
      (by decide),
   fun h => absurd
     ((c1_subset_matching [wlUi] svcAppTierZ wlUi (by decide) (by decide) (by decide)).mp h)
     (by decide)⟩

/-- Claim C2: route extraction emits one edge per path that carries a
backend service name (so a nameless path yields nothing), every emitted
pair targets the Ingress's own namespace, and the emission never
consults the other resources, so no existence validation happens. -/
theorem c2_ingress_route_extraction :
    (∀ ing : Resource,
      (routesOf ing).length
          = (ing.rules.map
              (fun r => (r.paths.filter (fun p => p.backendServiceName.isSome)).length)).sum ∧
      (∀ snm nsp, (snm, nsp) ∈ routesOf ing ↔
        nsp = ns ing ∧ ∃ r ∈ ing.rules, ∃ p ∈ r.paths, p.backendServiceName = some snm)) ∧
    (∀ objs : List Resource,
      ingressRouteEdges objs = ingressRouteEdges (objs.filter (fun o => o.kind == "Ingress"))) := by
  refine ⟨fun ing => ⟨?_, fun snm nsp => ?_⟩, fun objs => ?_⟩
  · rw [routesOf, List.length_flatMap]
    have h : (List.length ∘ fun r : IngressRule =>
          r.paths.filterMap (fun p => p.backendServiceName.map (fun sn => (sn, ns ing))))
        = fun r : IngressRule => (r.paths.filter (fun p => p.backendServiceName.isSome)).length :=
      funext (fun r => length_filterMap_optionMap _ r.paths)
    rw [h]
  · simp only [routesOf, List.mem_flatMap, List.mem_filterMap, Option.map_eq_some',
      Prod.mk.injEq]
    constructor
    · rintro ⟨r, hr, p, hp, a, ha, rfl, rfl⟩
      exact ⟨rfl, r, hr, p, hp, ha⟩
    · rintro ⟨rfl, r, hr, p, hp, ha⟩
      exact ⟨r, hr, p, hp, snm, ha, rfl, rfl⟩
  · simp [ingressRouteEdges, ingresses, List.filter_filter]

/-- Witness for C2, on the spec's scenario: the Ingress main in
namespace web with one named path forwards to frontend in web, and an
Ingress whose only path has no backend service name yields no route. -/
theorem c2_ingress_route_extraction_witness :
    ("frontend", "web") ∈ routesOf ingMain ∧ routesOf ingNoName = [] :=
  ⟨((c2_ingress_route_extraction.1 ingMain).2 "frontend" "web").mpr (by decide), by decide⟩

/-- Claim C3: one PodOwnership edge per (ownerReference, Workload) pair
agreeing on the Pod's namespace and exactly on kind and name; an empty
reference list yields no edge, and an unmatched reference (such as one
naming an unloaded ReplicaSet) contributes nothing, with no transitive
chain traversal. -/
theorem c3_pod_ownership_matching (wls : List Resource) (p : Resource) :
    ((podOwnershipEdges wls p).length
        = ((p.ownerReferences.getD []).map (fun oref =>
            (wls.filter (fun w =>
              ns w == ns p && oref.oname == some (name w) && oref.okind == some w.kind)).length)).sum) ∧
    (∀ wk pk, (wk, pk) ∈ podOwnershipEdges wls p ↔
      ∃ oref ∈ p.ownerReferences.getD [], ∃ w ∈ wls,
        ns w = ns p ∧ oref.oname = some (name w) ∧ oref.okind = some w.kind ∧
          wk = obj_key w ∧ pk = obj_key p) ∧
    (p.ownerReferences.getD [] = [] → podOwnershipEdges wls p = []) := by
  refine ⟨?_, fun wk pk => mem_podOwnershipEdges, fun h => ?_⟩
  · rw [podOwnershipEdges, List.length_flatMap]
    have h : (List.length ∘ fun oref : OwnerRef =>
          (wls.filter (fun w =>
            ns w == ns p && oref.oname == some (name w) && oref.okind == some w.kind)).map
            (fun w => (obj_key w, obj_key p)))
        = fun oref : OwnerRef =>
            (wls.filter (fun w =>
              ns w == ns p && oref.oname == some (name w) && oref.okind == some w.kind)).length :=
      funext (fun oref => List.length_map _ _)
    rw [h]
  · simp [podOwnershipEdges, h]

/-- Witness for C3, on the spec's scenario: the Pod owned by an
unloaded ReplicaSet links to nothing even though its Deployment is
loaded, and a Pod without ownerReferences links to nothing. -/
theorem c3_pod_ownership_matching_witness :
    podOwnershipEdges [wlFrontend] podAbc = [] ∧
      podOwnershipEdges [wlFrontend] podNoRefs = [] :=
  ⟨List.length_eq_zero.mp
      (by rw [(c3_pod_ownership_matching [wlFrontend] podAbc).1]; decide),
   (c3_pod_ownership_matching [wlFrontend] podNoRefs).2.2 (by decide)⟩

/-- Claim C4 as stated is false: a Pod listing two owner references
that each match a loaded Workload yields two controlling Workload keys,
not at most one. -/
theorem c4_single_owner_counterexample :
    (ownerWorkloadOf [wlDepA, wlJobB] podTwoRefs).length = 2 := by
  decide

/-- Claim C4, corrected: the ownership query returns zero or more
Workload keys, exactly those of the loaded same-namespace Workloads
matched by some owner reference on kind and name; it exceeds one key
whenever several (reference, Workload) pairs match. -/
theorem c4_owner_workloads (wls : List Resource) (p : Resource) (k : String) :
    k ∈ ownerWorkloadOf wls p ↔
      ∃ oref ∈ p.ownerReferences.getD [], ∃ w ∈ wls,
        ns w = ns p ∧ oref.oname = some (name w) ∧ oref.okind = some w.kind ∧
          k = obj_key w := by
  rw [ownerWorkloadOf]
  simp only [List.mem_map]
  constructor
  · rintro ⟨⟨wk, pk⟩, he, rfl⟩
    obtain ⟨oref, ho, w, hw, h1, h2, h3, h4, -⟩ := mem_podOwnershipEdges.mp he
    exact ⟨oref, ho, w, hw, h1, h2, h3, h4⟩
  · rintro ⟨oref, ho, w, hw, h1, h2, h3, rfl⟩
    exact ⟨(obj_key w, obj_key p),
      mem_podOwnershipEdges.mpr ⟨oref, ho, w, hw, h1, h2, h3, rfl, rfl⟩, rfl⟩

/-- Witness for C4: the first owner reference of the two-reference Pod
resolves to the loaded Deployment's key. -/
theorem c4_owner_workloads_witness :
    obj_key wlDepA ∈ ownerWorkloadOf [wlDepA, wlJobB] podTwoRefs :=
  (c4_owner_workloads [wlDepA, wlJobB] podTwoRefs (obj_key wlDepA)).mpr (by decide)

/-- Claim C5: a Service whose selector is empty or absent contributes
no backend, whatever Workloads its namespace holds. -/
theorem c5_empty_selector_no_backends (wls : List Resource) (s : Resource) :
    (svc_selector s = [] → backendsOf wls s = []) ∧
      (s.specSelector = none → backendsOf wls s = []) := by
  constructor
  · intro h
    simp [backendsOf, h]
  · intro h
    simp [backendsOf, svc_selector, h]

/-- Witness for C5: the selector-less Service in namespace web has no
backends even though a Workload with labels lives there. -/
theorem c5_empty_selector_no_backends_witness :
    backendsOf [wlUi] svcNoSel = [] :=
  (c5_empty_selector_no_backends [wlUi] svcNoSel).2 rfl

/-- Claim C6 as stated is false: two loaded Services with the identical
key d:Service:x are not collapsed with the last one winning; resolution
keeps both and produces an edge for the first copy's match wlA even
though wlA does not satisfy the last-loaded copy's selector, alongside
the second copy's match wlB. -/
theorem c6_duplicate_key_counterexample :
    obj_key svcX1 = obj_key svcX2 ∧ svcX1 ≠ svcX2 ∧
      Edge.serviceBackend (obj_key svcX1) (obj_key wlA) ∈ resolveAll objs6 ∧
      Edge.serviceBackend (obj_key svcX2) (obj_key wlB) ∈ resolveAll objs6 ∧
      selMatches (svc_selector svcX2) (label_map wlA) = false := by
  decide

/-- Claim C6, corrected: the (namespace, kind, name) key is the
identity edges use, but duplicate-key Resources are all kept: the
backend list stored under a key accumulates the matches of every
Service copy bearing that key. -/
theorem c6_duplicate_keys_accumulate (objs : List Resource) (key : String) (w : Resource) :
    w ∈ svc_backends objs key ↔
      ∃ s ∈ services objs, obj_key s = key ∧ w ∈ backendsOf (workloads objs) s := by
  simp [svc_backends, List.mem_flatMap, List.mem_filter, and_assoc]

/-- Witness for C6: the Workload matching only the first duplicate-key
Service is in the backend list looked up under the second copy's key. -/
theorem c6_duplicate_keys_accumulate_witness :
    wlA ∈ svc_backends objs6 (obj_key svcX2) :=
  (c6_duplicate_keys_accumulate objs6 (obj_key svcX2) wlA).mpr (by decide)

/-- Claim C7 as stated is false on both counts: the namespace grouping
of the resource set objs7 omits namespace z, which holds only a Pod,
and the backend accessor returns the same-namespace matches in load
order b, a rather than sorted by name. -/
theorem c7_sorted_accessors_counterexample :
    namespacesOf objs7 = ["a"] ∧ podZ ∈ objs7 ∧ ns podZ = "z" ∧
      (backendsOf (workloads objs7) svcA7).map name = ["b", "a"] := by
  decide

/-- Claim C7, corrected: namespacesOf returns a lexicographically
sorted duplicate-free sequence of exactly the namespaces of Services
and Workloads, while the backend accessor keeps the workload load
order, returning a sublist of its input. -/
theorem c7_namespaces_sorted :
    (∀ objs : List Resource,
      (namespacesOf objs).Sorted strLeR ∧ (namespacesOf objs).Nodup ∧
        (∀ n, n ∈ namespacesOf objs ↔
          n ∈ (services objs).map ns ++ (workloads objs).map ns)) ∧
    (∀ (wls : List Resource) (s : Resource), (backendsOf wls s).Sublist wls) := by
  refine ⟨fun objs =>
    ⟨List.sorted_insertionSort _ _,
     ((List.perm_insertionSort _ _).nodup_iff).mpr (List.nodup_dedup _),
     fun n => mem_namespacesOf⟩, fun wls s => ?_⟩
  rw [backendsOf]
  split
  · exact List.nil_sublist _
  · exact (List.filter_sublist _).trans (List.filter_sublist _)

/-- Claim C8: resolution is a pure function of the input resource
sequence, so two runs over identical input yield the same edges in the
same order. -/
theorem c8_resolution_deterministic (objs1 objs2 : List Resource)
    (h : objs1 = objs2) : resolveAll objs1 = resolveAll objs2 := by
  rw [h]

/-- Witness for C8: two runs over the demo resource set agree. -/
theorem c8_resolution_deterministic_witness :
    resolveAll objs7 = resolveAll objs7 :=
  c8_resolution_deterministic objs7 objs7 rfl

/-- Claim C9: resolution is total and degrades malformed input to the
absence of edges: an absent namespace reads as "default", an absent
selector yields no backend, a Workload without labels never matches a
non-empty selector, absent or dangling owner references yield no
ownership edge, and rules whose paths carry no service name yield no
route. -/
theorem c9_total_resolution :
    (∀ o : Resource, o.metaNamespace = none → ns o = "default") ∧
    (∀ (wls : List Resource) (s : Resource),
      s.specSelector = none → backendsOf wls s = []) ∧
    (∀ (wls : List Resource) (s w : Resource),
      w.metaLabels = none → svc_selector s ≠ [] → w ∉ backendsOf wls s) ∧
    (∀ (wls : List Resource) (p : Resource),
      p.ownerReferences = none → podOwnershipEdges wls p = []) ∧
    (∀ (wls : List Resource) (p : Resource),
      (∀ oref ∈ p.ownerReferences.getD [], ∀ w ∈ wls,
        ¬(ns w = ns p ∧ oref.oname = some (name w) ∧ oref.okind = some w.kind)) →
      podOwnershipEdges wls p = []) ∧
    (∀ ing : Resource,
      (∀ r ∈ ing.rules, ∀ p ∈ r.paths, p.backendServiceName = none) →
      routesOf ing = []) := by
  refine ⟨fun o h => by simp [ns, h],
    fun wls s h => by simp [backendsOf, svc_selector, h],
    fun wls s w hlab hsel hmem => ?_,
    fun wls p h => by simp [podOwnershipEdges, h],
    fun wls p h => ?_, fun ing h => ?_⟩
  · obtain ⟨-, -, hall⟩ := (mem_backendsOf hsel).mp hmem
    obtain ⟨kv, hkv⟩ := List.exists_mem_of_ne_nil _ hsel
    have := hall kv hkv
    simp [label_map, hlab] at this
  · rw [podOwnershipEdges, List.flatMap_eq_nil_iff]
    intro oref ho
    have hf : wls.filter (fun w =>
        ns w == ns p && oref.oname == some (name w) && oref.okind == some w.kind) = [] := by
      refine List.filter_eq_nil_iff.mpr (fun w hw => ?_)
      have hne := h oref ho w hw
      simp only [Bool.and_eq_true, beq_iff_eq, not_and]
      intro h1 h2
      exact hne ⟨h1.1, h1.2, h2⟩
    rw [hf]
    rfl
  · rw [routesOf, List.flatMap_eq_nil_iff]
    intro r hr
    refine List.filterMap_eq_nil_iff.mpr (fun p hp => ?_)
    rw [h r hr p hp]
    rfl

/-- Witness for C9, one concrete instance per degradation mode. -/
theorem c9_total_resolution_witness :
    ns podNoNs = "default" ∧ backendsOf [wlUi] svcNoSel = [] ∧
      wlDepA ∉ backendsOf [wlDepA] svcApp ∧
      podOwnershipEdges [wlFrontend] podNoRefs = [] ∧
      podOwnershipEdges [wlFrontend] podAbc = [] ∧
      routesOf ingNoName = [] :=
  ⟨c9_total_resolution.1 podNoNs rfl,
   c9_total_resolution.2.1 [wlUi] svcNoSel rfl,
   c9_total_resolution.2.2.1 [wlDepA] svcApp wlDepA rfl (by decide),
   c9_total_resolution.2.2.2.1 [wlFrontend] podNoRefs rfl,
   c9_total_resolution.2.2.2.2.1 [wlFrontend] podAbc (by decide),
   c9_total_resolution.2.2.2.2.2 ingNoName (by decide)⟩

/-- Claim C10: the namespace grouping contains exactly the namespaces
holding at least one Service or one Workload, so a namespace with only
Pods, Ingresses or Endpoints never appears. -/
theorem c10_grouping_domain (objs : List Resource) (n : String) :
    n ∈ namespacesOf objs ↔
      ∃ o ∈ objs, (o.kind = "Service" ∨ workload_type o.kind = true) ∧ ns o = n := by
  rw [mem_namespacesOf]
  simp only [List.mem_append, List.mem_map, services, workloads, List.mem_filter,
    beq_iff_eq]
  constructor
  · rintro (⟨o, ⟨ho, hk⟩, hn⟩ | ⟨o, ⟨ho, hk⟩, hn⟩)
    · exact ⟨o, ho, Or.inl hk, hn⟩
    · exact ⟨o, ho, Or.inr hk, hn⟩
  · rintro ⟨o, ho, hk | hk, hn⟩
    · exact Or.inl ⟨o, ⟨ho, hk⟩, hn⟩
    · exact Or.inr ⟨o, ⟨ho, hk⟩, hn⟩

end K8sDiagrams
